import Mathlib

/-!
Verification of the smartmeter-gateway core against its specification.

The development shallowly embeds the C++ sources:
  * `src/include/modbus_error.h`   — `ModbusError` and its severity classifier
  * `src/include/modbus_utils.h`   — register packing (`ModbusUtils.packToModbus`)
  * `src/include/register_base.h`, `common_registers.h`, `meter_registers.h`
                                   — the SunSpec register tables
  * `src/src/modbus_slave.cpp`     — `updateValues` / `updateDevice` snapshot rotation
  * `src/src/meter.cpp`            — `readTelegram`, OBIS parsing, derived quantities
  * `src/src/mqtt_client.cpp`      — per-topic bounded queues with duplicate suppression

Modelling conventions:
  * C++ `double` is idealised as `ℝ`; external library routines whose exact
    bit-level behaviour is outside the repository (libmodbus `modbus_set_float_abcd`,
    `std::stod`, `std::stoul`, `std::hash<std::string>`) are taken as parameters.
  * 16-bit registers hold `ℕ` words; integer casts (`static_cast<uintN_t>`) are
    modelled as two's-complement wrap (`% 2^N`), which agrees with the C++
    semantics on every in-range input.
  * Thread interleaving is out of scope: each member function is embedded as a
    pure state transformer, with the `running` flag of the `SignalHandler`
    passed explicitly.
-/

/-! ### Error codes

Numeric values of the `errno` constants (Linux) and of the libmodbus error
codes (`MODBUS_ENOBASE = 112345678` plus the Modbus exception number) used by
`modbus_error.h` and `meter.cpp`. -/

def EPERM : ℕ := 1
def ENOENT : ℕ := 2
def EINTR : ℕ := 4
-- the errno the C sources spell `E` `IO`; renamed here to avoid the Lean builtin
def EIOcode : ℕ := 5
def EBADF : ℕ := 9
def EAGAIN : ℕ := 11
def ENOMEM : ℕ := 12
def EACCES : ℕ := 13
def EBUSY : ℕ := 16
def ENODEV : ℕ := 19
def EINVAL : ℕ := 22
def ENFILE : ℕ := 23
def EMFILE : ℕ := 24
def ENAMETOOLONG : ℕ := 36
def EPROTO : ℕ := 71
def ENOTCONN : ℕ := 107
def ETIMEDOUT : ℕ := 110

def EMBXILFUN : ℕ := 112345679
def EMBXILADD : ℕ := 112345680
def EMBXILVAL : ℕ := 112345681
def EMBXSFAIL : ℕ := 112345682
def EMBXGTAR : ℕ := 112345689
def EMBMDATA : ℕ := 112345694

/-! ### `ModbusError` (src/include/modbus_error.h) -/

/-- Severity classification of a Modbus error, as in `modbus_error.h`. -/
inductive ModbusSeverity where
  | TRANSIENT
  | FATAL
  | SHUTDOWN
deriving DecidableEq

structure ModbusError where
  code : ℕ
  message : String
  severity : ModbusSeverity

/-- Translation of `ModbusError::deduceSeverity` (modbus_error.h, lines 205-222):
the `switch` sends the nine listed codes to FATAL, `EINTR` to SHUTDOWN, and
everything else to TRANSIENT. -/
def ModbusError.deduceSeverity (c : ℕ) : ModbusSeverity :=
  if c = EINVAL ∨ c = ENOMEM ∨ c = ENOENT ∨ c = EMBMDATA ∨ c = EMBXILFUN ∨
      c = EMBXILADD ∨ c = EMBXILVAL ∨ c = EMBXSFAIL ∨ c = EMBXGTAR then
    .FATAL
  else if c = EINTR then
    .SHUTDOWN
  else
    .TRANSIENT

/-- `ModbusError::fromErrno`: the current `errno` is passed explicitly as `e`. -/
def ModbusError.fromErrno (e : ℕ) (msg : String) : ModbusError :=
  { code := e, message := msg, severity := ModbusError.deduceSeverity e }

/-- `ModbusError::custom`. -/
def ModbusError.custom (c : ℕ) (msg : String) : ModbusError :=
  { code := c, message := msg, severity := ModbusError.deduceSeverity c }

/-- The set of codes `ModbusError::deduceSeverity` actually classifies FATAL. -/
def modbusFatalCodes : List ℕ :=
  [EINVAL, ENOMEM, ENOENT, EMBMDATA, EMBXILFUN, EMBXILADD, EMBXILVAL,
   EMBXSFAIL, EMBXGTAR]

/-! ### Register definitions (src/include/register_base.h)

Only the registers that the translated `.cpp` functions touch are transcribed
from `common_registers.h` / `meter_registers.h`; the remaining table entries
play no part in any embedded function. -/

inductive RegType where
  | UINT16
  | INT16
  | UINT32
  | UINT64
  | FLOAT
  | STRING
  | UNKNOWN
deriving DecidableEq

structure Register where
  ADDR : ℕ
  NB : ℕ
  TYPE : RegType
deriving DecidableEq

/-- `Register::withOffset` (only ever used with the non-negative offset 19). -/
def Register.withOffset (r : Register) (off : ℕ) : Register :=
  { r with ADDR := r.ADDR + off }

namespace C001

def SIZE : ℕ := 65
def SID : Register := ⟨40000, 2, .UINT32⟩
def ID : Register := ⟨40002, 1, .UINT16⟩
def L : Register := ⟨40003, 1, .UINT16⟩
def MN : Register := ⟨40004, 16, .STRING⟩
def MD : Register := ⟨40020, 16, .STRING⟩
def OPT : Register := ⟨40036, 8, .STRING⟩
def VR : Register := ⟨40044, 8, .STRING⟩
def SN : Register := ⟨40052, 16, .STRING⟩
def DA : Register := ⟨40068, 1, .UINT16⟩

end C001

namespace M20X

def SIZE : ℕ := 105
def ID : Register := ⟨40069, 1, .UINT16⟩
def L : Register := ⟨40070, 1, .UINT16⟩
def A : Register := ⟨40071, 1, .INT16⟩
def APHA : Register := ⟨40072, 1, .INT16⟩
def APHB : Register := ⟨40073, 1, .INT16⟩
def APHC : Register := ⟨40074, 1, .INT16⟩
def A_SF : Register := ⟨40075, 1, .INT16⟩
def PHV : Register := ⟨40076, 1, .INT16⟩
def PHVPHA : Register := ⟨40077, 1, .INT16⟩
def PHVPHB : Register := ⟨40078, 1, .INT16⟩
def PHVPHC : Register := ⟨40079, 1, .INT16⟩
def PPV : Register := ⟨40080, 1, .INT16⟩
def PPVPHAB : Register := ⟨40081, 1, .INT16⟩
def PPVPHBC : Register := ⟨40082, 1, .INT16⟩
def PPVPHCA : Register := ⟨40083, 1, .INT16⟩
def V_SF : Register := ⟨40084, 1, .INT16⟩
def FREQ : Register := ⟨40085, 1, .INT16⟩
def FREQ_SF : Register := ⟨40086, 1, .INT16⟩
def W : Register := ⟨40087, 1, .INT16⟩
def WPHA : Register := ⟨40088, 1, .INT16⟩
def WPHB : Register := ⟨40089, 1, .INT16⟩
def WPHC : Register := ⟨40090, 1, .INT16⟩
def W_SF : Register := ⟨40091, 1, .INT16⟩
def VA : Register := ⟨40092, 1, .INT16⟩
def VAPHA : Register := ⟨40093, 1, .INT16⟩
def VAPHB : Register := ⟨40094, 1, .INT16⟩
def VAPHC : Register := ⟨40095, 1, .INT16⟩
def VA_SF : Register := ⟨40096, 1, .INT16⟩
def VAR : Register := ⟨40097, 1, .INT16⟩
def VARPHA : Register := ⟨40098, 1, .INT16⟩
def VARPHB : Register := ⟨40099, 1, .INT16⟩
def VARPHC : Register := ⟨40100, 1, .INT16⟩
def VAR_SF : Register := ⟨40101, 1, .INT16⟩
def PF : Register := ⟨40102, 1, .INT16⟩
def PFPHA : Register := ⟨40103, 1, .INT16⟩
def PFPHB : Register := ⟨40104, 1, .INT16⟩
def PFPHC : Register := ⟨40105, 1, .INT16⟩
def PF_SF : Register := ⟨40106, 1, .INT16⟩
def TOTWH_IMP : Register := ⟨40115, 2, .UINT32⟩
def TOTWH_SF : Register := ⟨40123, 1, .INT16⟩

end M20X

namespace M21X

def SIZE : ℕ := 124
def ID : Register := ⟨40069, 1, .UINT16⟩
def L : Register := ⟨40070, 1, .UINT16⟩
def A : Register := ⟨40071, 2, .FLOAT⟩
def APHA : Register := ⟨40073, 2, .FLOAT⟩
def APHB : Register := ⟨40075, 2, .FLOAT⟩
def APHC : Register := ⟨40077, 2, .FLOAT⟩
def PHV : Register := ⟨40079, 2, .FLOAT⟩
def PHVPHA : Register := ⟨40081, 2, .FLOAT⟩
def PHVPHB : Register := ⟨40083, 2, .FLOAT⟩
def PHVPHC : Register := ⟨40085, 2, .FLOAT⟩
def PPV : Register := ⟨40087, 2, .FLOAT⟩
def PPVPHAB : Register := ⟨40089, 2, .FLOAT⟩
def PPVPHBC : Register := ⟨40091, 2, .FLOAT⟩
def PPVPHCA : Register := ⟨40093, 2, .FLOAT⟩
def FREQ : Register := ⟨40095, 2, .FLOAT⟩
def W : Register := ⟨40097, 2, .FLOAT⟩
def WPHA : Register := ⟨40099, 2, .FLOAT⟩
def WPHB : Register := ⟨40101, 2, .FLOAT⟩
def WPHC : Register := ⟨40103, 2, .FLOAT⟩
def VA : Register := ⟨40105, 2, .FLOAT⟩
def VAPHA : Register := ⟨40107, 2, .FLOAT⟩
def VAPHB : Register := ⟨40109, 2, .FLOAT⟩
def VAPHC : Register := ⟨40111, 2, .FLOAT⟩
def VAR : Register := ⟨40113, 2, .FLOAT⟩
def VARPHA : Register := ⟨40115, 2, .FLOAT⟩
def VARPHB : Register := ⟨40117, 2, .FLOAT⟩
def VARPHC : Register := ⟨40119, 2, .FLOAT⟩
def PF : Register := ⟨40121, 2, .FLOAT⟩
def PFPHA : Register := ⟨40123, 2, .FLOAT⟩
def PFPHB : Register := ⟨40125, 2, .FLOAT⟩
def PFPHC : Register := ⟨40127, 2, .FLOAT⟩
def TOTWH_IMP : Register := ⟨40137, 2, .FLOAT⟩

end M21X

namespace M_END

def FLOAT_OFFSET : ℕ := 19
def ID : Register := ⟨40176, 1, .UINT16⟩
def L : Register := ⟨40177, 1, .UINT16⟩

end M_END

/-! ### The register snapshot (`modbus_mapping_t`) and the packing helpers -/

/-- A `modbus_mapping_t` restricted to what the slave uses: `nb` models
`nb_registers` and `tab` models `tab_registers` (a word per address).
`modbus_mapping_new` zero-fills the block. -/
structure Mapping where
  nb : ℕ
  tab : ℕ → ℕ

def writeWord (m : Mapping) (a w : ℕ) : Mapping :=
  { m with tab := fun b => if b = a then w else m.tab b }

namespace ModbusSlave

/-- `ModbusSlave::MODBUS_REGISTERS` (modbus_slave.h line 22). -/
def MODBUS_REGISTERS : ℕ := 65535

end ModbusSlave

/-- A fresh `modbus_mapping_new(0, 0, MODBUS_REGISTERS, 0)` (zero-filled)
followed by the `memcpy` of all `nb_registers` words of the old snapshot
(modbus_slave.cpp lines 168-178). -/
def copyMapping (old : Mapping) : Mapping :=
  { nb := ModbusSlave.MODBUS_REGISTERS,
    tab := fun a => if a < ModbusSlave.MODBUS_REGISTERS then old.tab a else 0 }

/-- `static_cast<uint16_t>` of a (possibly negative) integer: two's-complement
wrap.  For doubles the C++ cast chain is only defined on in-range inputs, where
it coincides with this. -/
def u16ofInt (z : ℤ) : ℕ := (z % 65536).toNat

def u32ofInt (z : ℤ) : ℕ := (z % 4294967296).toNat

def u64ofInt (z : ℤ) : ℕ := (z % 18446744073709551616).toNat

/-- `std::round`: round half away from zero. -/
noncomputable def roundAway (x : ℝ) : ℤ :=
  if 0 ≤ x then ⌊x + 1 / 2⌋ else -⌊-x + 1 / 2⌋

/-- `detail::packInteger<uint32_t>`: on the little-endian host the byte buffer
holds the value's bytes low-to-high; each 16-bit word is rebuilt high-byte
first and the word sequence is then reversed, so word 0 receives bits 31..16
and word 1 bits 15..0. -/
def packInteger32 (m : Mapping) (addr v : ℕ) : Mapping :=
  writeWord (writeWord m addr (v / 65536 % 65536)) (addr + 1) (v % 65536)

/-- `detail::packInteger<uint64_t>`: big-endian across the four words. -/
def packInteger64 (m : Mapping) (addr v : ℕ) : Mapping :=
  writeWord
    (writeWord
      (writeWord (writeWord m addr (v / 2 ^ 48 % 65536)) (addr + 1) (v / 2 ^ 32 % 65536))
      (addr + 2) (v / 65536 % 65536))
    (addr + 3) (v % 65536)

/-- One call of the template `ModbusUtils::packToModbus<T>` with a floating
`T` (`float` in the float branch, `double` for the `M20X::PF*` calls), or of
the integer+scale-factor overload.  `setF` stands for the external libmodbus
routine `modbus_set_float_abcd` composed with the `double`→`float` cast. -/
inductive PackOp where
  | pfloat (reg : Register) (x : ℝ)
  | pintSF (reg sf : Register) (x : ℝ) (d : ℕ)

namespace ModbusUtils

/-- `ModbusUtils::packToModbus<T>` (modbus_utils.h lines 42-115) instantiated
at a floating `T` (`float` in the float branch, `double` for the `M20X::PF*`
calls): only the `FLOAT` case stores anything — for every other register type
the `if constexpr (std::is_integral_v<T>)` (or `is_same_v<T, std::string>`)
guard is false for a floating `T`, so the call returns success without
writing. -/
noncomputable def packToModbusF (setF : ℝ → ℕ × ℕ) (m : Mapping) (reg : Register) (x : ℝ) : Mapping :=
  match reg.TYPE with
  | .FLOAT => writeWord (writeWord m reg.ADDR (setF x).1) (reg.ADDR + 1) (setF x).2
  | _ => m

/-- The integer + scale-factor overload of `ModbusUtils::packToModbus`
(modbus_utils.h lines 118-171): the value register receives
`round(realValue · 10^decimals)` cast to the register's width, then the
scale-factor register receives
`static_cast<uint16_t>(-static_cast<int16_t>(decimals))`; the unsupported
register types return an error before either write. -/
noncomputable def packToModbusSF (m : Mapping) (reg sf : Register) (x : ℝ) (d : ℕ) : Mapping :=
  match reg.TYPE with
  | .INT16 => writeWord (writeWord m reg.ADDR (u16ofInt (roundAway (x * 10 ^ d)))) sf.ADDR (u16ofInt (-(d : ℤ)))
  | .UINT16 => writeWord (writeWord m reg.ADDR (u16ofInt (roundAway (x * 10 ^ d)))) sf.ADDR (u16ofInt (-(d : ℤ)))
  | .UINT32 => writeWord (packInteger32 m reg.ADDR (u32ofInt (roundAway (x * 10 ^ d)))) sf.ADDR (u16ofInt (-(d : ℤ)))
  | .UINT64 => writeWord (packInteger64 m reg.ADDR (u64ofInt (roundAway (x * 10 ^ d)))) sf.ADDR (u16ofInt (-(d : ℤ)))
  | _ => m

end ModbusUtils

/-- Semantics of one pack call. -/
noncomputable def applyPack (setF : ℝ → ℕ × ℕ) (m : Mapping) : PackOp → Mapping
  | .pfloat reg x => ModbusUtils.packToModbusF setF m reg x
  | .pintSF reg sf x d => ModbusUtils.packToModbusSF m reg sf x d

/-- Addresses a pack call writes (empty when the call is a silent no-op). -/
def PackOp.addrs : PackOp → List ℕ
  | .pfloat reg _ =>
    match reg.TYPE with
    | .FLOAT => [reg.ADDR, reg.ADDR + 1]
    | _ => []
  | .pintSF reg sf _ _ =>
    match reg.TYPE with
    | .INT16 => [reg.ADDR, sf.ADDR]
    | .UINT16 => [reg.ADDR, sf.ADDR]
    | .UINT32 => [reg.ADDR, reg.ADDR + 1, sf.ADDR]
    | .UINT64 => [reg.ADDR, reg.ADDR + 1, reg.ADDR + 2, reg.ADDR + 3, sf.ADDR]
    | _ => []

/-! ### Meter data model (src/include/meter_types.h, fields as used by the .cpp) -/

namespace MeterTypes

structure Phase where
  phVoltage : ℝ
  ppVoltage : ℝ
  current : ℝ
  activePower : ℝ
  reactivePower : ℝ
  apparentPower : ℝ
  powerFactor : ℝ

structure Values where
  time : ℕ
  activeSensorTime : ℕ
  energy : ℝ
  phVoltage : ℝ
  ppVoltage : ℝ
  current : ℝ
  activePower : ℝ
  reactivePower : ℝ
  apparentPower : ℝ
  powerFactor : ℝ
  frequency : ℝ
  phase1 : Phase
  phase2 : Phase
  phase3 : Phase

/-- Zero-initialisation `MeterTypes::Values values{}`. -/
def Phase.zero : Phase := ⟨0, 0, 0, 0, 0, 0, 0⟩

def Values.zero : Values :=
  { time := 0, activeSensorTime := 0, energy := 0, phVoltage := 0,
    ppVoltage := 0, current := 0, activePower := 0, reactivePower := 0,
    apparentPower := 0, powerFactor := 0, frequency := 0,
    phase1 := Phase.zero, phase2 := Phase.zero, phase3 := Phase.zero }

/-- `MeterTypes::Device`; the strings are byte lists. -/
structure Device where
  manufacturer : List ℕ
  model : List ℕ
  options : List ℕ
  serialNumber : List ℕ
  fwVersion : List ℕ
  status : List ℕ
  phases : ℕ

end MeterTypes

/-! ### ModbusSlave (src/src/modbus_slave.cpp) -/

open MeterTypes

/-- The slave's mutable state: the atomically swappable snapshot handle
`regs_` and the device latch `deviceUpdated_`. -/
structure SlaveState where
  regs : Option Mapping
  deviceUpdated : Bool

/-- `ModbusUtils::packToModbus<std::string>`: an over-long string errors before
any write; otherwise two ASCII bytes per register, high byte first, a lone
final byte in the high byte, and the rest of the region zeroed.  Register
`reg.ADDR + i` therefore receives `s[2i] * 256 + s[2i+1]` with missing bytes
read as zero. -/
def packString (m : Mapping) (reg : Register) (s : List ℕ) : Mapping :=
  match reg.TYPE with
  | .STRING =>
    if 2 * reg.NB < s.length then m
    else
      (List.range reg.NB).foldl
        (fun acc i => writeWord acc (reg.ADDR + i) (s.getD (2 * i) 0 * 256 + s.getD (2 * i + 1) 0)) m
  | _ => m

namespace ModbusSlave

/-- The static SunSpec frame written by `ModbusSlave::startListener`
(modbus_slave.cpp lines 52-80): `SID = 0x53756e53` packed as a `UINT32`, the
common-model header, and the selected meter-model header plus end marker. -/
def startRegs (useFloat : Bool) (slaveId : ℕ) : Mapping :=
  let m0 : Mapping := { nb := MODBUS_REGISTERS, tab := fun _ => 0 }
  let m1 := packInteger32 m0 C001.SID.ADDR 0x53756e53
  let m2 := writeWord m1 C001.ID.ADDR 1
  let m3 := writeWord m2 C001.L.ADDR C001.SIZE
  let m4 := writeWord m3 C001.DA.ADDR slaveId
  if useFloat then
    writeWord (writeWord (writeWord m4 M21X.ID.ADDR 213) M21X.L.ADDR M21X.SIZE)
      ((M_END.ID.withOffset M_END.FLOAT_OFFSET).ADDR) 0xFFFF
  else
    writeWord (writeWord (writeWord m4 M20X.ID.ADDR 203) M20X.L.ADDR M20X.SIZE)
      M_END.ID.ADDR 0xFFFF

/-- State after a successful `startListener`. -/
def initState (useFloat : Bool) (slaveId : ℕ) : SlaveState :=
  { regs := some (startRegs useFloat slaveId), deviceUpdated := false }

/-- modbus_slave.cpp lines 180-187: kWh → Wh and power factors → percent,
applied to the by-value `values` argument before packing. -/
noncomputable def rescaleValues (v : Values) : Values :=
  { v with
    energy := v.energy * 1e3
    powerFactor := v.powerFactor * 100.0
    phase1 := { v.phase1 with powerFactor := v.phase1.powerFactor * 100.0 }
    phase2 := { v.phase2 with powerFactor := v.phase2.powerFactor * 100.0 }
    phase3 := { v.phase3 with powerFactor := v.phase3.powerFactor * 100.0 } }

/-- The float-model pack sequence of `updateValues` (lines 189-264), in source
order; every call is `packToModbus<float>` on an `M21X` float register. -/
noncomputable def valuePacksFloat (v : Values) : List PackOp :=
  [.pfloat M21X.PF v.powerFactor,
   .pfloat M21X.PFPHA v.phase1.powerFactor,
   .pfloat M21X.PFPHB v.phase2.powerFactor,
   .pfloat M21X.PFPHC v.phase3.powerFactor,
   .pfloat M21X.W v.activePower,
   .pfloat M21X.WPHA v.phase1.activePower,
   .pfloat M21X.WPHB v.phase2.activePower,
   .pfloat M21X.WPHC v.phase3.activePower,
   .pfloat M21X.VA v.apparentPower,
   .pfloat M21X.VAPHA v.phase1.apparentPower,
   .pfloat M21X.VAPHB v.phase2.apparentPower,
   .pfloat M21X.VAPHC v.phase3.apparentPower,
   .pfloat M21X.VAR v.reactivePower,
   .pfloat M21X.VARPHA v.phase1.reactivePower,
   .pfloat M21X.VARPHB v.phase2.reactivePower,
   .pfloat M21X.VARPHC v.phase3.reactivePower,
   .pfloat M21X.PHV v.phVoltage,
   .pfloat M21X.PHVPHA v.phase1.phVoltage,
   .pfloat M21X.PHVPHB v.phase2.phVoltage,
   .pfloat M21X.PHVPHC v.phase3.phVoltage,
   .pfloat M21X.PPV v.ppVoltage,
   .pfloat M21X.PPVPHAB v.phase1.ppVoltage,
   .pfloat M21X.PPVPHBC v.phase2.ppVoltage,
   .pfloat M21X.PPVPHCA v.phase3.ppVoltage,
   .pfloat M21X.A v.current,
   .pfloat M21X.APHA v.phase1.current,
   .pfloat M21X.APHB v.phase2.current,
   .pfloat M21X.APHC v.phase3.current,
   .pfloat M21X.TOTWH_IMP v.energy,
   .pfloat M21X.FREQ v.frequency]

/-- The integer+scale-factor pack sequence of `updateValues` (lines 266-348),
in source order.  The four power-factor calls use the single-argument
`packToModbus` with a `double` on `INT16` registers, hence are no-ops. -/
noncomputable def valuePacksInt (v : Values) : List PackOp :=
  [.pfloat M20X.PF v.powerFactor,
   .pfloat M20X.PFPHA v.phase1.powerFactor,
   .pfloat M20X.PFPHB v.phase2.powerFactor,
   .pfloat M20X.PFPHC v.phase3.powerFactor,
   .pintSF M20X.W M20X.W_SF v.activePower 0,
   .pintSF M20X.WPHA M20X.W_SF v.phase1.activePower 0,
   .pintSF M20X.WPHB M20X.W_SF v.phase2.activePower 0,
   .pintSF M20X.WPHC M20X.W_SF v.phase3.activePower 0,
   .pintSF M20X.VA M20X.VA_SF v.apparentPower 0,
   .pintSF M20X.VAPHA M20X.VA_SF v.phase1.apparentPower 0,
   .pintSF M20X.VAPHB M20X.VA_SF v.phase2.apparentPower 0,
   .pintSF M20X.VAPHC M20X.VA_SF v.phase3.apparentPower 0,
   .pintSF M20X.VAR M20X.VAR_SF v.reactivePower 0,
   .pintSF M20X.VARPHA M20X.VAR_SF v.phase1.reactivePower 0,
   .pintSF M20X.VARPHB M20X.VAR_SF v.phase2.reactivePower 0,
   .pintSF M20X.VARPHC M20X.VAR_SF v.phase3.reactivePower 0,
   .pintSF M20X.PHV M20X.V_SF v.phVoltage 1,
   .pintSF M20X.PHVPHA M20X.V_SF v.phase1.phVoltage 1,
   .pintSF M20X.PHVPHB M20X.V_SF v.phase2.phVoltage 1,
   .pintSF M20X.PHVPHC M20X.V_SF v.phase3.phVoltage 1,
   .pintSF M20X.PPV M20X.V_SF v.ppVoltage 1,
   .pintSF M20X.PPVPHAB M20X.V_SF v.phase1.ppVoltage 1,
   .pintSF M20X.PPVPHBC M20X.V_SF v.phase2.ppVoltage 1,
   .pintSF M20X.PPVPHCA M20X.V_SF v.phase3.ppVoltage 1,
   .pintSF M20X.A M20X.A_SF v.current 3,
   .pintSF M20X.APHA M20X.A_SF v.phase1.current 3,
   .pintSF M20X.APHB M20X.A_SF v.phase2.current 3,
   .pintSF M20X.APHC M20X.A_SF v.phase3.current 3,
   .pintSF M20X.TOTWH_IMP M20X.TOTWH_SF v.energy 1,
   .pintSF M20X.FREQ M20X.FREQ_SF v.frequency 2]

/-- `ModbusSlave::updateValues` (lines 154-351): bail out on shutdown or a
missing mapping, copy the old snapshot into a fresh allocation, rescale the
by-value argument, run the model-specific pack sequence and publish the new
handle with `regs_.store`. -/
noncomputable def updateValues (setF : ℝ → ℕ × ℕ) (useFloat running : Bool)
    (v : Values) (st : SlaveState) : SlaveState :=
  if running = false then st
  else
    match st.regs with
    | none => st
    | some old =>
      let w := rescaleValues v
      let ops := if useFloat then valuePacksFloat w else valuePacksInt w
      { st with regs := some (ops.foldl (applyPack setF) (copyMapping old)) }

/-- `ModbusSlave::updateDevice` (lines 353-393): bail out on shutdown, on the
`deviceUpdated_` latch or on a missing mapping; otherwise copy the snapshot,
pack the four common-model strings, publish, and set the latch. -/
def updateDevice (running : Bool) (dev : Device) (st : SlaveState) : SlaveState :=
  if running = false then st
  else if st.deviceUpdated then st
  else
    match st.regs with
    | none => st
    | some old =>
      let m0 := copyMapping old
      let m1 := packString m0 C001.MN dev.manufacturer
      let m2 := packString m1 C001.MD dev.model
      let m3 := packString m2 C001.VR dev.fwVersion
      let m4 := packString m3 C001.SN dev.serialNumber
      { regs := some m4, deviceUpdated := true }

end ModbusSlave

/-! ### Meter (src/src/meter.cpp) -/

namespace Meter

def BUFFER_SIZE : ℕ := 64
def TELEGRAM_SIZE : ℕ := 368

/-- The telegram-completion test `packetPos >= 3 && packet[packetPos-3] == '!'`,
which is also (negated) the final sync check of `readTelegram`. -/
def telegramDone (acc : List Char) : Bool :=
  if 3 ≤ acc.length then acc.getD (acc.length - 3) ' ' == '!' else false

/-- The check after the read loop (meter.cpp line 280): `packetPos < 3 ||
packet[packetPos-3] != '!'` is a `EPROTO` stream-sync error, else success. -/
def finalCheck (acc : List Char) : Except ModbusError (List Char) :=
  if telegramDone acc then .ok acc
  else .error (ModbusError.custom EPROTO "readTelegram: telegram stream not in sync")

/-- The byte-processing loop of `Meter::readTelegram` (meter.cpp lines 243-277)
over the stream of bytes the serial port delivers, byte at a time: the 64-byte
chunking does not change the per-byte processing.  `mb` is `messageBegin`,
`acc` the packet filled so far.  An exhausted stream models `read` returning
0, the mid-telegram timeout. -/
def readLoop : List Char → Bool → List Char → Except ModbusError (List Char)
  | [], _, acc =>
    if TELEGRAM_SIZE ≤ acc.length then finalCheck acc
    else .error (ModbusError.custom ETIMEDOUT "readTelegram: timeout during read")
  | c :: rest, mb, acc =>
    if TELEGRAM_SIZE ≤ acc.length then finalCheck acc
    else
      let mb2 := mb || (c == '/')
      if mb2 then
        let acc2 := acc ++ [c]
        if telegramDone acc2 then finalCheck acc2
        else readLoop rest mb2 acc2
      else readLoop rest mb2 acc

/-- `Meter::readTelegram` (meter.cpp lines 226-294).  The shutdown flag and
connection state are checked first; the successful result is the stored
`telegram_`. -/
def readTelegram (running connected : Bool) (input : List Char) :
    Except ModbusError (List Char) :=
  if running = false then
    .error (ModbusError.custom EINTR "readTelegram: shutdown in progress")
  else if connected = false then
    .error (ModbusError.custom ENOTCONN "readTelegram: meter not connected")
  else readLoop input false []

/-! #### The OBIS line regex

`meter.cpp` line 319 builds `^([0-9]-0:[0-9]+.[0-9]+.[0-9]+\*255)\(([^)]+)\)`
(note: the two separators are *unescaped* dots, i.e. any character) and runs
`std::regex_search` on each line.  The functions below are a complete
backtracking matcher for exactly this pattern, greedy runs first, returning
the two capture groups. -/

/-- Candidate lengths of a leading `[0-9]+` run, longest (greedy) first. -/
def digitRunLens (l : List Char) : List ℕ :=
  let m := (l.takeWhile Char.isDigit).length
  (List.range m).map (fun i => m - i)

/-- The literal tail `\*255\(([^)]+)\)`: returns the number of characters that
belong to capture group 1 (the four of `*255`) and capture group 2. -/
def matchAfterN3 (l : List Char) : Option (ℕ × List Char) :=
  match l with
  | '*' :: '2' :: '5' :: '5' :: '(' :: r =>
    let v := r.takeWhile (fun c => c != ')')
    if v.isEmpty then none
    else if (r.drop v.length).head? = some ')' then some (4, v) else none
  | _ => none

/-- `[0-9]+` directly followed by the `\*255(...)` tail. -/
def matchSeg3 (l : List Char) : Option (ℕ × List Char) :=
  (digitRunLens l).findSome? fun n =>
    (matchAfterN3 (l.drop n)).map fun p => (n + p.1, p.2)

/-- `[0-9]+` then one arbitrary character (the unescaped dot) then `matchSeg3`. -/
def matchSeg2 (l : List Char) : Option (ℕ × List Char) :=
  (digitRunLens l).findSome? fun n =>
    match l.drop n with
    | [] => none
    | _ :: r => (matchSeg3 r).map fun p => (n + 1 + p.1, p.2)

/-- `[0-9]+` then one arbitrary character then `matchSeg2`. -/
def matchSeg1 (l : List Char) : Option (ℕ × List Char) :=
  (digitRunLens l).findSome? fun n =>
    match l.drop n with
    | [] => none
    | _ :: r => (matchSeg2 r).map fun p => (n + 1 + p.1, p.2)

/-- `std::regex_search(line, match, obexRegex)` with the two capture groups:
group 1 is the OBIS code through `*255`, group 2 the text between the
parentheses. -/
def obisSearch (line : List Char) : Option (List Char × List Char) :=
  match line with
  | d :: '-' :: '0' :: ':' :: t =>
    if d.isDigit then
      (matchSeg1 t).map fun p => (d :: '-' :: '0' :: ':' :: t.take p.1, p.2)
    else none
  | _ => none

/-- Modelled from the spec: the OBIS regex exactly as the specification writes
it — `^(\d-0:\d+\.\d+\.\d+\*255)\(([^)]+)\)` with *escaped* dots.  Because a
digit run cannot contain `'.'`, the decomposition is deterministic. -/
def specObisMatches (line : List Char) : Bool :=
  match line with
  | d :: '-' :: '0' :: ':' :: t =>
    d.isDigit &&
      (let n1 := t.takeWhile Char.isDigit
       let t1 := t.drop n1.length
       match t1 with
       | '.' :: t2 =>
         let n2 := t2.takeWhile Char.isDigit
         let t3 := t2.drop n2.length
         (match t3 with
          | '.' :: t4 =>
            let n3 := t4.takeWhile Char.isDigit
            !n1.isEmpty && !n2.isEmpty && !n3.isEmpty &&
              (matchAfterN3 (t4.drop n3.length)).isSome
          | _ => false)
       | _ => false)
  | _ => false

end Meter

namespace Meter

/-- `line.erase(remove(...), '\r')`. -/
def stripCR (l : List Char) : List Char := l.filter (fun c => c != '\r')

/-- `std::getline` over the telegram; a trailing separator yields a final
empty segment here where `getline` yields none, but empty lines are skipped
by the parser either way. -/
def splitLines (t : List Char) : List (List Char) := t.splitOn '\n'

/-- One iteration of the parse loop of `Meter::updateValuesAndJson`
(meter.cpp lines 330-371) on an already stripped, non-empty, non-`/`,
non-`!` line.  `stod` and `stoulHex` stand for `std::stod` and
`std::stoul(·, nullptr, 16)`; `none` models the exception they throw on a
malformed number, which the `catch` turns into `EPROTO` — as it does the
failed regex search. -/
noncomputable def parseLine (stod : List Char → Option ℝ)
    (stoulHex : List Char → Option ℕ) (v : Values) (l : List Char) :
    Except ModbusError Values :=
  match obisSearch l with
  | none => .error (ModbusError.custom EPROTO "malformed OBEX expression")
  | some (obis, valueUnit) =>
    let num := valueUnit.takeWhile (fun c => c != '*')
    if obis = "1-0:1.8.0*255".toList then
      match stod num with
      | none => .error (ModbusError.custom EPROTO "stod failed")
      | some x => .ok { v with energy := x }
    else if obis = "1-0:16.7.0*255".toList then
      match stod num with
      | none => .error (ModbusError.custom EPROTO "stod failed")
      | some x => .ok { v with activePower := x }
    else if obis = "1-0:36.7.0*255".toList then
      match stod num with
      | none => .error (ModbusError.custom EPROTO "stod failed")
      | some x => .ok { v with phase1 := { v.phase1 with activePower := x } }
    else if obis = "1-0:56.7.0*255".toList then
      match stod num with
      | none => .error (ModbusError.custom EPROTO "stod failed")
      | some x => .ok { v with phase2 := { v.phase2 with activePower := x } }
    else if obis = "1-0:76.7.0*255".toList then
      match stod num with
      | none => .error (ModbusError.custom EPROTO "stod failed")
      | some x => .ok { v with phase3 := { v.phase3 with activePower := x } }
    else if obis = "1-0:32.7.0*255".toList then
      match stod num with
      | none => .error (ModbusError.custom EPROTO "stod failed")
      | some x => .ok { v with phase1 := { v.phase1 with phVoltage := x } }
    else if obis = "1-0:52.7.0*255".toList then
      match stod num with
      | none => .error (ModbusError.custom EPROTO "stod failed")
      | some x => .ok { v with phase2 := { v.phase2 with phVoltage := x } }
    else if obis = "1-0:72.7.0*255".toList then
      match stod num with
      | none => .error (ModbusError.custom EPROTO "stod failed")
      | some x => .ok { v with phase3 := { v.phase3 with phVoltage := x } }
    else if obis = "0-0:96.8.0*255".toList then
      match stoulHex num with
      | none => .error (ModbusError.custom EPROTO "stoul failed")
      | some n => .ok { v with activeSensorTime := n }
    else .ok v

/-- The `while (std::getline(iss, line))` loop: strip `'\r'`, skip empty lines
and lines starting with `'/'` or `'!'`, process the rest in order, stopping at
the first error. -/
noncomputable def parseLines (stod : List Char → Option ℝ)
    (stoulHex : List Char → Option ℕ) :
    List (List Char) → Values → Except ModbusError Values
  | [], v => .ok v
  | l :: rest, v =>
    let s := stripCR l
    if s.isEmpty then parseLines stod stoulHex rest v
    else if s.head? = some '/' ∨ s.head? = some '!' then parseLines stod stoulHex rest v
    else
      match parseLine stod stoulHex v s with
      | .error e => .error e
      | .ok v2 => parseLines stod stoulHex rest v2

/-- `meter.grid` with its `power_factor`/`frequency` entries. -/
structure GridConfig where
  powerFactor : ℝ
  frequency : ℝ

/-- Power factor: 0.95 assumed, overridden by `cfg_.grid` (lines 374-381). -/
noncomputable def gridPowerFactor (grid : Option GridConfig) : ℝ :=
  match grid with
  | some g => g.powerFactor
  | none => 0.95

/-- Frequency: 50.0 assumed, overridden by `cfg_.grid`. -/
noncomputable def gridFrequency (grid : Option GridConfig) : ℝ :=
  match grid with
  | some g => g.frequency
  | none => 50.0

/-- The derived-quantity block of `Meter::updateValuesAndJson` (meter.cpp
lines 374-433).  The per-phase power factors are first set to the aggregate
one, so every division and `tan(acos(·))` below uses `pf`. -/
noncomputable def computeDerived (grid : Option GridConfig) (v : Values) : Values :=
  let pf := gridPowerFactor grid
  let app := v.activePower / pf
  let app1 := v.phase1.activePower / pf
  let app2 := v.phase2.activePower / pf
  let app3 := v.phase3.activePower / pf
  let rea := Real.tan (Real.arccos pf) * v.activePower
  let rea1 := Real.tan (Real.arccos pf) * v.phase1.activePower
  let rea2 := Real.tan (Real.arccos pf) * v.phase2.activePower
  let rea3 := Real.tan (Real.arccos pf) * v.phase3.activePower
  let phv := (v.phase1.phVoltage + v.phase2.phVoltage + v.phase3.phVoltage) / 3.0
  let ppv1 := Real.sqrt (v.phase1.phVoltage * v.phase1.phVoltage +
    v.phase2.phVoltage * v.phase2.phVoltage + v.phase1.phVoltage * v.phase2.phVoltage)
  let ppv2 := Real.sqrt (v.phase2.phVoltage * v.phase2.phVoltage +
    v.phase3.phVoltage * v.phase3.phVoltage + v.phase2.phVoltage * v.phase3.phVoltage)
  let ppv3 := Real.sqrt (v.phase3.phVoltage * v.phase3.phVoltage +
    v.phase1.phVoltage * v.phase1.phVoltage + v.phase3.phVoltage * v.phase1.phVoltage)
  let cur1 := v.phase1.activePower / (v.phase1.phVoltage * pf)
  let cur2 := v.phase2.activePower / (v.phase2.phVoltage * pf)
  let cur3 := v.phase3.activePower / (v.phase3.phVoltage * pf)
  let p1 := { v.phase1 with powerFactor := pf, apparentPower := app1, reactivePower := rea1, ppVoltage := ppv1, current := cur1 }
  let p2 := { v.phase2 with powerFactor := pf, apparentPower := app2, reactivePower := rea2, ppVoltage := ppv2, current := cur2 }
  let p3 := { v.phase3 with powerFactor := pf, apparentPower := app3, reactivePower := rea3, ppVoltage := ppv3, current := cur3 }
  { v with
    powerFactor := pf
    frequency := gridFrequency grid
    apparentPower := app
    reactivePower := rea
    phVoltage := phv
    ppVoltage := (ppv1 + ppv2 + ppv3) / 3.0
    current := cur1 + cur2 + cur3
    phase1 := p1
    phase2 := p2
    phase3 := p3 }

/-- `Meter::updateValuesAndJson` (meter.cpp lines 296-495): shutdown check,
empty-telegram early return (`.ok none` — no values commit), the parse loop,
then the derived quantities; the committed `values_` are returned. -/
noncomputable def updateValuesAndJson (stod : List Char → Option ℝ)
    (stoulHex : List Char → Option ℕ) (grid : Option GridConfig)
    (running : Bool) (nowMs : ℕ) (telegram : List Char) :
    Except ModbusError (Option Values) :=
  if running = false then
    .error (ModbusError.custom EINTR "updateValuesAndJson: shutdown in progress")
  else if telegram.isEmpty then .ok none
  else
    match parseLines stod stoulHex (splitLines telegram) { Values.zero with time := nowMs } with
    | .error e => .error e
    | .ok v => .ok (some (computeDerived grid v))

end Meter

/-! ### MqttClient (src/src/mqtt_client.cpp) -/

namespace MqttClient

/-- The per-topic data guarded by `mutex_`: `topicQueues_` (front of the list
is the queue head, i.e. the oldest message), `lastPayloadHashes_`
(`none` models a key absent from the unordered map) and `droppedCount_`
(the ordered map's `operator[]` default is 0). -/
structure State where
  topicQueues : String → List String
  lastPayloadHashes : String → Option ℕ
  droppedCount : String → ℕ

/-- `MqttClient::publish` (mqtt_client.cpp lines 84-121).  `hashFn` stands for
`std::hash<std::string>`.  A payload whose hash equals the last recorded one
for the topic returns before touching any state; otherwise the hash is
recorded, a full queue (`size >= queue_size`) pops its head and bumps the
topic's drop counter, and the new message is pushed at the tail. -/
def publish (hashFn : String → ℕ) (queueSize : ℕ) (payload topic : String)
    (st : State) : State :=
  let payloadHash := hashFn payload
  if st.lastPayloadHashes topic = some payloadHash then st
  else
    let hashes := fun t => if t = topic then some payloadHash else st.lastPayloadHashes t
    let q := st.topicQueues topic
    let qPopped := if queueSize ≤ q.length then q.tail else q
    let dropped := fun t =>
      if t = topic then (if queueSize ≤ q.length then st.droppedCount t + 1 else st.droppedCount t)
      else st.droppedCount t
    { topicQueues := fun t => if t = topic then qPopped ++ [payload] else st.topicQueues t,
      lastPayloadHashes := hashes,
      droppedCount := dropped }

end MqttClient

/-! ### Decoding helpers (the reader's view of a register pair)

These express how a SunSpec client reads back what `packToModbus` stored:
a 16-bit word as a signed int16, a multi-word integer big-endian across
words, and an int-with-scale-factor pair as `raw · 10^sf`. -/

/-- A 16-bit register word read back as a signed int16. -/
def toInt16 (w : ℕ) : ℤ := if w < 32768 then (w : ℤ) else (w : ℤ) - 65536

/-- The integer a client decodes from the value register(s) of `reg`. -/
def decodeIntReg (m : Mapping) (reg : Register) : ℤ :=
  match reg.TYPE with
  | .INT16 => toInt16 (m.tab reg.ADDR)
  | .UINT16 => (m.tab reg.ADDR : ℤ)
  | .UINT32 => (m.tab reg.ADDR * 65536 + m.tab (reg.ADDR + 1) : ℤ)
  | .UINT64 => (m.tab reg.ADDR * 2 ^ 48 + m.tab (reg.ADDR + 1) * 2 ^ 32 +
      m.tab (reg.ADDR + 2) * 65536 + m.tab (reg.ADDR + 3) : ℤ)
  | _ => 0

/-- The words that hold the value of an integer-typed register. -/
def valueAddrs (reg : Register) : List ℕ :=
  match reg.TYPE with
  | .INT16 => [reg.ADDR]
  | .UINT16 => [reg.ADDR]
  | .UINT32 => [reg.ADDR, reg.ADDR + 1]
  | .UINT64 => [reg.ADDR, reg.ADDR + 1, reg.ADDR + 2, reg.ADDR + 3]
  | _ => []

/-- Representability of an integer in the register's integer width (the range
on which the C++ double→integer cast chain is defined and lossless). -/
def intRegRange (t : RegType) (z : ℤ) : Prop :=
  match t with
  | .INT16 => -32768 ≤ z ∧ z < 32768
  | .UINT16 => 0 ≤ z ∧ z < 65536
  | .UINT32 => 0 ≤ z ∧ z < 4294967296
  | .UINT64 => 0 ≤ z ∧ z < 18446744073709551616
  | _ => False

/-- A line of the telegram that the parse loop of `updateValuesAndJson` must
reject: after stripping `'\r'` it is non-empty, is neither the `'/'` header
line nor a `'!'` line, and fails the code's OBIS regex search. -/
def Meter.badLine (l : List Char) : Prop :=
  Meter.stripCR l ≠ [] ∧ (Meter.stripCR l).head? ≠ some '/' ∧
    (Meter.stripCR l).head? ≠ some '!' ∧ Meter.obisSearch (Meter.stripCR l) = none

/-- The register addresses the `updateValues` pack sequence writes for the
selected model (they do not depend on the packed values). -/
noncomputable def ModbusSlave.packAddrs (useFloat : Bool) : List ℕ :=
  (if useFloat then ModbusSlave.valuePacksFloat MeterTypes.Values.zero
   else ModbusSlave.valuePacksInt MeterTypes.Values.zero).flatMap PackOp.addrs
/-! ### Theorems -/

/-- C2 (counterexample): the claim puts `ENODEV` among the FATAL codes, but
`ModbusError::deduceSeverity` classifies it TRANSIENT. -/
theorem modbusError_ENODEV_transient_not_fatal :
    (ModbusError.fromErrno ENODEV "").severity = ModbusSeverity.TRANSIENT ∧
    ModbusSeverity.TRANSIENT ≠ ModbusSeverity.FATAL := by
  exact ⟨rfl, by decide⟩

/-- C2 (amended): a `ModbusError` built by `fromErrno` or `custom` is FATAL
exactly for `EINVAL`, `ENOMEM`, `ENOENT` and the six libmodbus codes
`EMBMDATA`, `EMBXILFUN`, `EMBXILADD`, `EMBXILVAL`, `EMBXSFAIL`, `EMBXGTAR`;
`EINTR` gives SHUTDOWN; every other code gives TRANSIENT. -/
theorem modbusError_severity_classification (c : ℕ) (msg : String) :
    ((ModbusError.fromErrno c msg).severity = ModbusSeverity.FATAL ↔ c ∈ modbusFatalCodes) ∧
    ((ModbusError.fromErrno c msg).severity = ModbusSeverity.SHUTDOWN ↔ c = EINTR) ∧
    (c ∉ modbusFatalCodes → c ≠ EINTR →
      (ModbusError.fromErrno c msg).severity = ModbusSeverity.TRANSIENT) ∧
    (ModbusError.custom c msg).severity = (ModbusError.fromErrno c msg).severity := by
  have h1 : (ModbusError.fromErrno c msg).severity = ModbusError.deduceSeverity c := rfl
  have h2 : (ModbusError.custom c msg).severity = ModbusError.deduceSeverity c := rfl
  rw [h1, h2]
  have hmem : c ∈ modbusFatalCodes ↔ (c = EINVAL ∨ c = ENOMEM ∨ c = ENOENT ∨ c = EMBMDATA ∨
      c = EMBXILFUN ∨ c = EMBXILADD ∨ c = EMBXILVAL ∨ c = EMBXSFAIL ∨ c = EMBXGTAR) := by
    simp [modbusFatalCodes]
  unfold ModbusError.deduceSeverity
  split_ifs with hf hs
  · refine ⟨by simp [hmem.mpr hf], ?_, ?_, rfl⟩
    · constructor
      · intro h; cases h
      · intro h
        subst h
        rcases hf with h | h | h | h | h | h | h | h | h <;> simp_all [EINTR, EINVAL, ENOMEM,
          ENOENT, EMBMDATA, EMBXILFUN, EMBXILADD, EMBXILVAL, EMBXSFAIL, EMBXGTAR]
    · intro hn _
      exact absurd (hmem.mpr hf) hn
  · subst hs
    exact ⟨by simp [hmem] at hf ⊢; decide, by simp, fun _ h => absurd rfl h, rfl⟩
  · refine ⟨?_, ?_, fun _ _ => rfl, rfl⟩
    · constructor
      · intro h; cases h
      · intro h; exact absurd (hmem.mp h) hf
    · constructor
      · intro h; cases h
      · intro h; exact absurd h hs

/-- C2 (witness): the errno value 5 is neither in the fatal list nor `EINTR`,
so it classifies TRANSIENT. -/
theorem modbusError_severity_classification_witness :
    (ModbusError.fromErrno EIOcode "").severity = ModbusSeverity.TRANSIENT :=
  (modbusError_severity_classification EIOcode "").2.2.1 (by decide) (by decide)

/-- C6: a publish whose payload hashes to the topic's recorded last hash
returns without modifying anything, and a repeated publish of the same
payload to the same topic is absorbed (exactly one enqueue). -/
theorem publish_duplicate_suppressed (hashFn : String → ℕ) (queueSize : ℕ)
    (payload topic : String) (st : MqttClient.State) :
    (st.lastPayloadHashes topic = some (hashFn payload) →
      MqttClient.publish hashFn queueSize payload topic st = st) ∧
    MqttClient.publish hashFn queueSize payload topic
        (MqttClient.publish hashFn queueSize payload topic st) =
      MqttClient.publish hashFn queueSize payload topic st := by
  have key : ∀ s : MqttClient.State, s.lastPayloadHashes topic = some (hashFn payload) →
      MqttClient.publish hashFn queueSize payload topic s = s := by
    intro s h
    unfold MqttClient.publish
    rw [if_pos h]
  refine ⟨key st, key _ ?_⟩
  unfold MqttClient.publish
  by_cases h : st.lastPayloadHashes topic = some (hashFn payload)
  · rw [if_pos h]; exact h
  · rw [if_neg h]; simp

/-- C6 (witness): with the recorded hash matching, publish is the identity. -/
theorem publish_duplicate_suppressed_witness :
    MqttClient.publish (fun _ => 0) 5 "p" "t"
        ⟨fun _ => [], fun _ => some 0, fun _ => 0⟩ =
      ⟨fun _ => [], fun _ => some 0, fun _ => 0⟩ :=
  (publish_duplicate_suppressed (fun _ => 0) 5 "p" "t" _).1 rfl

/-- C7: a non-suppressed publish onto a queue already holding `queue_size`
messages pops the head and bumps the topic's drop counter before pushing the
new message at the tail; queues never exceed `queue_size`, and the new message
is the tail (never the dropped one). -/
theorem publish_queue_bound (hashFn : String → ℕ) (queueSize : ℕ)
    (payload topic : String) (st : MqttClient.State)
    (hdup : ¬st.lastPayloadHashes topic = some (hashFn payload)) :
    ((st.topicQueues topic).length = queueSize →
      (MqttClient.publish hashFn queueSize payload topic st).topicQueues topic =
          (st.topicQueues topic).tail ++ [payload] ∧
      (MqttClient.publish hashFn queueSize payload topic st).droppedCount topic =
          st.droppedCount topic + 1) ∧
    ((MqttClient.publish hashFn queueSize payload topic st).topicQueues topic).getLast? =
        some payload ∧
    (1 ≤ queueSize → (∀ t, (st.topicQueues t).length ≤ queueSize) →
      ∀ t, ((MqttClient.publish hashFn queueSize payload topic st).topicQueues t).length ≤
        queueSize) := by
  unfold MqttClient.publish
  rw [if_neg hdup]
  refine ⟨?_, ?_, ?_⟩
  · intro hfull
    constructor
    · simp [if_pos (le_of_eq hfull.symm)]
    · simp [if_pos (le_of_eq hfull.symm)]
  · simp
  · intro hqs hall t
    by_cases ht : t = topic
    · subst ht
      have h1 := hall t
      have h2 := List.length_tail (st.topicQueues t)
      by_cases hfull : queueSize ≤ (st.topicQueues t).length
      · simp only [if_pos rfl, if_pos hfull, List.length_append, List.length_singleton, ite_true,
          eq_self_iff_true]
        omega
      · simp only [if_pos rfl, if_neg hfull, List.length_append, List.length_singleton, ite_true,
          eq_self_iff_true]
        omega
    · simp only [if_neg ht]
      exact hall t

/-- C7 (witness): queue size 1 with one queued message: the head is dropped,
the counter bumped, and the new payload is the whole queue. -/
theorem publish_queue_bound_witness :
    (MqttClient.publish (fun _ => 0) 1 "p" "t"
        ⟨fun _ => ["a"], fun _ => none, fun _ => 0⟩).topicQueues "t" = ["p"] ∧
    (MqttClient.publish (fun _ => 0) 1 "p" "t"
        ⟨fun _ => ["a"], fun _ => none, fun _ => 0⟩).droppedCount "t" = 1 :=
  (publish_queue_bound (fun _ => 0) 1 "p" "t" _ (by simp)).1 rfl

/-- C8: once `updateDevice` has successfully published a device snapshot the
`deviceUpdated_` latch is set, and every later `updateDevice` call — with any
argument and any `running` flag — leaves the whole state unchanged. -/
theorem updateDevice_latched_once (d d2 : MeterTypes.Device) (r2 : Bool)
    (st : SlaveState) (m : Mapping) (hregs : st.regs = some m)
    (hlatch : st.deviceUpdated = false) :
    (ModbusSlave.updateDevice true d st).deviceUpdated = true ∧
    ModbusSlave.updateDevice r2 d2 (ModbusSlave.updateDevice true d st) =
      ModbusSlave.updateDevice true d st := by
  have hstep : ModbusSlave.updateDevice true d st =
      { regs := some (packString (packString (packString (packString (copyMapping m)
          C001.MN d.manufacturer) C001.MD d.model) C001.VR d.fwVersion) C001.SN d.serialNumber),
        deviceUpdated := true } := by
    unfold ModbusSlave.updateDevice
    simp [hregs, hlatch]
  rw [hstep]
  refine ⟨rfl, ?_⟩
  unfold ModbusSlave.updateDevice
  cases r2 <;> simp

/-- C8 (witness): starting from the listener's initial state. -/
theorem updateDevice_latched_once_witness :
    ModbusSlave.updateDevice false ⟨[], [], [], [], [], [], 0⟩
        (ModbusSlave.updateDevice true ⟨[], [], [], [], [], [], 0⟩
          (ModbusSlave.initState false 1)) =
      ModbusSlave.updateDevice true ⟨[], [], [], [], [], [], 0⟩
        (ModbusSlave.initState false 1) :=
  (updateDevice_latched_once ⟨[], [], [], [], [], [], 0⟩ ⟨[], [], [], [], [], [], 0⟩ false
    (ModbusSlave.initState false 1) (ModbusSlave.startRegs false 1) rfl rfl).2

/-- `std::round` is within 1/2 of its argument. -/
theorem roundAway_sub_abs_le (y : ℝ) : |((roundAway y : ℤ) : ℝ) - y| ≤ 1 / 2 := by
  unfold roundAway
  by_cases h : 0 ≤ y
  · rw [if_pos h]
    have h1 := Int.floor_le (y + 1 / 2)
    have h2 := Int.lt_floor_add_one (y + 1 / 2)
    rw [abs_le]
    constructor <;> linarith
  · rw [if_neg h]
    have h1 := Int.floor_le (-y + 1 / 2)
    have h2 := Int.lt_floor_add_one (-y + 1 / 2)
    rw [abs_le]
    push_cast
    constructor <;> linarith

/-- Reading back a 16-bit store of an in-range int16 recovers it. -/
theorem toInt16_u16ofInt (z : ℤ) (h1 : -32768 ≤ z) (h2 : z < 32768) :
    toInt16 (u16ofInt z) = z := by
  unfold toInt16 u16ofInt
  split_ifs <;> omega

/-- C5 (defined-domain behaviour): whenever `round(v · 10^d)` is representable
in the value register's integer width — the domain on which the C++
double-to-integer cast chain is defined at all — the integer+scale-factor
overload stores exactly `round(v · 10^d)` in the value register, stores `-d`
as an int16 in the scale-factor register, and decoding the pair as
`raw · 10^sf` recovers `v` within `0.5 · 10^(-d)`.  Note what is *not* here:
`modbus_utils.h` contains no clamping, so the claim's "clamped silently to
the register's integer width" has no counterpart in the code — an
out-of-range `static_cast` from `double` is undefined behaviour, not
saturation. -/
theorem packToModbusSF_roundtrip (m : Mapping) (reg sf : Register) (x : ℝ) (d : ℕ)
    (hrange : intRegRange reg.TYPE (roundAway (x * 10 ^ d)))
    (hsf : sf.ADDR ∉ valueAddrs reg) (hd : d < 32768) :
    decodeIntReg (ModbusUtils.packToModbusSF m reg sf x d) reg = roundAway (x * 10 ^ d) ∧
    (ModbusUtils.packToModbusSF m reg sf x d).tab sf.ADDR = u16ofInt (-(d : ℤ)) ∧
    toInt16 ((ModbusUtils.packToModbusSF m reg sf x d).tab sf.ADDR) = -(d : ℤ) ∧
    |(decodeIntReg (ModbusUtils.packToModbusSF m reg sf x d) reg : ℝ) *
        (10 : ℝ) ^ (toInt16 ((ModbusUtils.packToModbusSF m reg sf x d).tab sf.ADDR)) - x| ≤
      1 / 2 * (10 : ℝ) ^ (-(d : ℤ)) := by
  have hsfval : toInt16 (u16ofInt (-(d : ℤ))) = -(d : ℤ) :=
    toInt16_u16ofInt (-(d : ℤ)) (by omega) (by omega)
  have key : ∀ w : ℤ, w = roundAway (x * 10 ^ d) →
      |(w : ℝ) * (10 : ℝ) ^ (-(d : ℤ)) - x| ≤ 1 / 2 * (10 : ℝ) ^ (-(d : ℤ)) := by
    intro w hw
    subst hw
    have hc : (0 : ℝ) < (10 : ℝ) ^ d := by positivity
    have hbound := roundAway_sub_abs_le (x * 10 ^ d)
    rw [zpow_neg, zpow_natCast]
    have hrw : ((roundAway (x * 10 ^ d) : ℤ) : ℝ) * ((10 : ℝ) ^ d)⁻¹ - x =
        (((roundAway (x * 10 ^ d) : ℤ) : ℝ) - x * (10 : ℝ) ^ d) * ((10 : ℝ) ^ d)⁻¹ := by
      field_simp
      ring
    rw [hrw, abs_mul, abs_inv, abs_of_pos hc]
    exact mul_le_mul_of_nonneg_right hbound (by positivity)
  obtain ⟨addr, nb, ty⟩ := reg
  cases ty <;> simp only [intRegRange] at hrange
  case INT16 =>
    simp [valueAddrs] at hsf
    have htabs : (ModbusUtils.packToModbusSF m ⟨addr, nb, .INT16⟩ sf x d).tab sf.ADDR =
        u16ofInt (-(d : ℤ)) := by
      show (writeWord _ sf.ADDR _).tab sf.ADDR = _
      simp [writeWord]
    have htabv : (ModbusUtils.packToModbusSF m ⟨addr, nb, .INT16⟩ sf x d).tab addr =
        u16ofInt (roundAway (x * 10 ^ d)) := by
      show (writeWord (writeWord m addr _) sf.ADDR _).tab addr = _
      simp [writeWord, Ne.symm hsf]
    have hdec : decodeIntReg (ModbusUtils.packToModbusSF m ⟨addr, nb, .INT16⟩ sf x d)
        ⟨addr, nb, .INT16⟩ = roundAway (x * 10 ^ d) := by
      show toInt16 ((ModbusUtils.packToModbusSF m ⟨addr, nb, .INT16⟩ sf x d).tab addr) = _
      rw [htabv]
      exact toInt16_u16ofInt _ hrange.1 hrange.2
    refine ⟨hdec, htabs, by rw [htabs]; exact hsfval, ?_⟩
    rw [hdec, htabs, hsfval]
    exact key _ rfl
  case UINT16 =>
    simp [valueAddrs] at hsf
    have htabs : (ModbusUtils.packToModbusSF m ⟨addr, nb, .UINT16⟩ sf x d).tab sf.ADDR =
        u16ofInt (-(d : ℤ)) := by
      show (writeWord _ sf.ADDR _).tab sf.ADDR = _
      simp [writeWord]
    have htabv : (ModbusUtils.packToModbusSF m ⟨addr, nb, .UINT16⟩ sf x d).tab addr =
        u16ofInt (roundAway (x * 10 ^ d)) := by
      show (writeWord (writeWord m addr _) sf.ADDR _).tab addr = _
      simp [writeWord, Ne.symm hsf]
    have hdec : decodeIntReg (ModbusUtils.packToModbusSF m ⟨addr, nb, .UINT16⟩ sf x d)
        ⟨addr, nb, .UINT16⟩ = roundAway (x * 10 ^ d) := by
      show (((ModbusUtils.packToModbusSF m ⟨addr, nb, .UINT16⟩ sf x d).tab addr : ℕ) : ℤ) = _
      rw [htabv]
      unfold u16ofInt
      omega
    refine ⟨hdec, htabs, by rw [htabs]; exact hsfval, ?_⟩
    rw [hdec, htabs, hsfval]
    exact key _ rfl
  case UINT32 =>
    simp [valueAddrs] at hsf
    obtain ⟨hs1, hs2⟩ := hsf
    have htabs : (ModbusUtils.packToModbusSF m ⟨addr, nb, .UINT32⟩ sf x d).tab sf.ADDR =
        u16ofInt (-(d : ℤ)) := by
      show (writeWord _ sf.ADDR _).tab sf.ADDR = _
      simp [writeWord]
    have htab1 : (ModbusUtils.packToModbusSF m ⟨addr, nb, .UINT32⟩ sf x d).tab addr =
        u32ofInt (roundAway (x * 10 ^ d)) / 65536 % 65536 := by
      show (writeWord (packInteger32 m addr _) sf.ADDR _).tab addr = _
      simp [writeWord, packInteger32, Ne.symm hs1, show ¬addr = addr + 1 by omega]
    have htab2 : (ModbusUtils.packToModbusSF m ⟨addr, nb, .UINT32⟩ sf x d).tab (addr + 1) =
        u32ofInt (roundAway (x * 10 ^ d)) % 65536 := by
      show (writeWord (packInteger32 m addr _) sf.ADDR _).tab (addr + 1) = _
      simp [writeWord, packInteger32, Ne.symm hs2]
    have hdec : decodeIntReg (ModbusUtils.packToModbusSF m ⟨addr, nb, .UINT32⟩ sf x d)
        ⟨addr, nb, .UINT32⟩ = roundAway (x * 10 ^ d) := by
      show ((ModbusUtils.packToModbusSF m ⟨addr, nb, .UINT32⟩ sf x d).tab addr * 65536 +
          (ModbusUtils.packToModbusSF m ⟨addr, nb, .UINT32⟩ sf x d).tab (addr + 1) : ℕ) = (_ : ℤ)
      rw [htab1, htab2]
      unfold u32ofInt
      omega
    refine ⟨hdec, htabs, by rw [htabs]; exact hsfval, ?_⟩
    rw [hdec, htabs, hsfval]
    exact key _ rfl
  case UINT64 =>
    simp [valueAddrs] at hsf
    obtain ⟨hs1, hs2, hs3, hs4⟩ := hsf
    have htabs : (ModbusUtils.packToModbusSF m ⟨addr, nb, .UINT64⟩ sf x d).tab sf.ADDR =
        u16ofInt (-(d : ℤ)) := by
      show (writeWord _ sf.ADDR _).tab sf.ADDR = _
      simp [writeWord]
    have htab1 : (ModbusUtils.packToModbusSF m ⟨addr, nb, .UINT64⟩ sf x d).tab addr =
        u64ofInt (roundAway (x * 10 ^ d)) / 2 ^ 48 % 65536 := by
      show (writeWord (packInteger64 m addr _) sf.ADDR _).tab addr = _
      simp [writeWord, packInteger64, Ne.symm hs1, show ¬addr = addr + 1 by omega,
        show ¬addr = addr + 2 by omega, show ¬addr = addr + 3 by omega]
    have htab2 : (ModbusUtils.packToModbusSF m ⟨addr, nb, .UINT64⟩ sf x d).tab (addr + 1) =
        u64ofInt (roundAway (x * 10 ^ d)) / 2 ^ 32 % 65536 := by
      show (writeWord (packInteger64 m addr _) sf.ADDR _).tab (addr + 1) = _
      simp [writeWord, packInteger64, Ne.symm hs2, show ¬addr + 1 = addr + 2 by omega,
        show ¬addr + 1 = addr + 3 by omega]
    have htab3 : (ModbusUtils.packToModbusSF m ⟨addr, nb, .UINT64⟩ sf x d).tab (addr + 2) =
        u64ofInt (roundAway (x * 10 ^ d)) / 65536 % 65536 := by
      show (writeWord (packInteger64 m addr _) sf.ADDR _).tab (addr + 2) = _
      simp [writeWord, packInteger64, Ne.symm hs3, show ¬addr + 2 = addr + 3 by omega]
    have htab4 : (ModbusUtils.packToModbusSF m ⟨addr, nb, .UINT64⟩ sf x d).tab (addr + 3) =
        u64ofInt (roundAway (x * 10 ^ d)) % 65536 := by
      show (writeWord (packInteger64 m addr _) sf.ADDR _).tab (addr + 3) = _
      simp [writeWord, packInteger64, Ne.symm hs4]
    have hdec : decodeIntReg (ModbusUtils.packToModbusSF m ⟨addr, nb, .UINT64⟩ sf x d)
        ⟨addr, nb, .UINT64⟩ = roundAway (x * 10 ^ d) := by
      show ((ModbusUtils.packToModbusSF m ⟨addr, nb, .UINT64⟩ sf x d).tab addr * 2 ^ 48 +
          (ModbusUtils.packToModbusSF m ⟨addr, nb, .UINT64⟩ sf x d).tab (addr + 1) * 2 ^ 32 +
          (ModbusUtils.packToModbusSF m ⟨addr, nb, .UINT64⟩ sf x d).tab (addr + 2) * 65536 +
          (ModbusUtils.packToModbusSF m ⟨addr, nb, .UINT64⟩ sf x d).tab (addr + 3) : ℕ) = (_ : ℤ)
      rw [htab1, htab2, htab3, htab4]
      unfold u64ofInt
      omega
    refine ⟨hdec, htabs, by rw [htabs]; exact hsfval, ?_⟩
    rw [hdec, htabs, hsfval]
    exact key _ rfl

/-- C5 (witness): packing 259.0 at 0 decimals into `M20X::W`/`M20X::W_SF`
stores 259 with scale factor 0. -/
theorem packToModbusSF_roundtrip_witness :
    decodeIntReg (ModbusUtils.packToModbusSF ⟨65535, fun _ => 0⟩ M20X.W M20X.W_SF 259 0) M20X.W =
        259 ∧
    toInt16 ((ModbusUtils.packToModbusSF ⟨65535, fun _ => 0⟩ M20X.W M20X.W_SF 259 0).tab
        M20X.W_SF.ADDR) = 0 := by
  have h259 : roundAway ((259 : ℝ) * 10 ^ (0 : ℕ)) = 259 := by
    unfold roundAway
    rw [if_pos (by norm_num)]
    rw [Int.floor_eq_iff]
    constructor <;> norm_num
  have h := packToModbusSF_roundtrip ⟨65535, fun _ => 0⟩ M20X.W M20X.W_SF 259 0
    (by simp only [show M20X.W.TYPE = RegType.INT16 from rfl, intRegRange, h259]; omega)
    (by decide) (by decide)
  exact ⟨h.1.trans h259, by simpa using h.2.2.1⟩

/-- `finalCheck` succeeds exactly with the accumulated packet, when complete. -/
theorem finalCheck_ok {acc t : List Char} (h : Meter.finalCheck acc = .ok t) :
    t = acc ∧ Meter.telegramDone acc = true := by
  unfold Meter.finalCheck at h
  by_cases hd : Meter.telegramDone acc = true
  · rw [if_pos hd] at h
    cases h
    exact ⟨rfl, hd⟩
  · rw [if_neg hd] at h
    cases h

/-- What the completion test says about the packet. -/
theorem telegramDone_spec {t : List Char} (h : Meter.telegramDone t = true) :
    3 ≤ t.length ∧ t.getD (t.length - 3) ' ' = '!' := by
  unfold Meter.telegramDone at h
  by_cases h3 : 3 ≤ t.length
  · rw [if_pos h3] at h
    exact ⟨h3, by simpa using h⟩
  · rw [if_neg h3] at h
    cases h

/-- Any accepted packet is complete and no longer than `TELEGRAM_SIZE`. -/
theorem readLoop_ok_len : ∀ (input : List Char) (mb : Bool) (acc t : List Char),
    Meter.readLoop input mb acc = .ok t → acc.length ≤ Meter.TELEGRAM_SIZE →
    Meter.telegramDone t = true ∧ t.length ≤ Meter.TELEGRAM_SIZE := by
  intro input
  induction input with
  | nil =>
    intro mb acc t h hlen
    unfold Meter.readLoop at h
    by_cases hsz : Meter.TELEGRAM_SIZE ≤ acc.length
    · rw [if_pos hsz] at h
      obtain ⟨rfl, hdone⟩ := finalCheck_ok h
      exact ⟨hdone, hlen⟩
    · rw [if_neg hsz] at h
      cases h
  | cons c rest ih =>
    intro mb acc t h hlen
    simp only [Meter.readLoop] at h
    by_cases hsz : Meter.TELEGRAM_SIZE ≤ acc.length
    · rw [if_pos hsz] at h
      obtain ⟨rfl, hdone⟩ := finalCheck_ok h
      exact ⟨hdone, hlen⟩
    · rw [if_neg hsz] at h
      by_cases hmb : (mb || (c == '/')) = true
      · rw [if_pos hmb] at h
        by_cases hdone : Meter.telegramDone (acc ++ [c]) = true
        · rw [if_pos hdone] at h
          obtain ⟨rfl, hd2⟩ := finalCheck_ok h
          refine ⟨hd2, ?_⟩
          simp only [Meter.TELEGRAM_SIZE, not_le] at hsz
          simp only [Meter.TELEGRAM_SIZE, List.length_append, List.length_singleton]
          omega
        · rw [if_neg hdone] at h
          refine ih _ _ _ h ?_
          simp only [Meter.TELEGRAM_SIZE, not_le] at hsz
          simp only [Meter.TELEGRAM_SIZE, List.length_append, List.length_singleton]
          omega
      · rw [if_neg hmb] at h
        exact ih _ _ _ h hlen

/-- Once `messageBegin` is set, the loop only appends input bytes in order. -/
theorem readLoop_true_extends : ∀ (input acc t : List Char),
    Meter.readLoop input true acc = .ok t → ∃ k, t = acc ++ input.take k := by
  intro input
  induction input with
  | nil =>
    intro acc t h
    unfold Meter.readLoop at h
    by_cases hsz : Meter.TELEGRAM_SIZE ≤ acc.length
    · rw [if_pos hsz] at h
      obtain ⟨rfl, _⟩ := finalCheck_ok h
      exact ⟨0, by simp⟩
    · rw [if_neg hsz] at h
      cases h
  | cons c rest ih =>
    intro acc t h
    simp only [Meter.readLoop, Bool.true_or, if_true] at h
    by_cases hsz : Meter.TELEGRAM_SIZE ≤ acc.length
    · rw [if_pos hsz] at h
      obtain ⟨rfl, _⟩ := finalCheck_ok h
      exact ⟨0, by simp⟩
    · rw [if_neg hsz] at h
      by_cases hdone : Meter.telegramDone (acc ++ [c]) = true
      · rw [if_pos hdone] at h
        obtain ⟨rfl, _⟩ := finalCheck_ok h
        exact ⟨1, by simp⟩
      · rw [if_neg hdone] at h
        obtain ⟨k, hk⟩ := ih _ _ h
        refine ⟨k + 1, ?_⟩
        rw [hk, List.append_assoc]
        rfl

/-- From an empty packet with `messageBegin` unset, an accepted telegram
starts at the stream's first `'/'`: everything before it is discarded. -/
theorem readLoop_false_shape : ∀ (input t : List Char),
    Meter.readLoop input false [] = .ok t →
    t.head? = some '/' ∧ ∃ pre post, input = pre ++ (t ++ post) ∧ '/' ∉ pre := by
  intro input
  induction input with
  | nil =>
    intro t h
    unfold Meter.readLoop at h
    rw [if_neg (by simp [Meter.TELEGRAM_SIZE])] at h
    cases h
  | cons c rest ih =>
    intro t h
    simp only [Meter.readLoop, Bool.false_or] at h
    rw [if_neg (by simp [Meter.TELEGRAM_SIZE])] at h
    by_cases hc : (c == '/') = true
    · rw [if_pos hc] at h
      have hch : c = '/' := by simpa using hc
      subst hch
      rw [if_neg (by decide)] at h
      obtain ⟨k, hk⟩ := readLoop_true_extends rest (List.nil ++ ['/']) t h
      simp only [List.nil_append] at hk
      refine ⟨by simp [hk], [], rest.drop k, ?_, by simp⟩
      rw [hk]
      simp [List.take_append_drop]
    · rw [if_neg hc] at h
      rw [show (c == '/') = false from by simpa using hc] at h
      obtain ⟨hhead, pre, post, heq, hpre⟩ := ih t h
      refine ⟨hhead, c :: pre, post, by rw [heq]; rfl, ?_⟩
      intro hmem
      rcases List.mem_cons.mp hmem with h1 | h1
      · exact hc (by simp [h1.symm])
      · exact hpre h1

/-- C3: every telegram `readTelegram` accepts has between 3 and 368 bytes,
starts with `'/'`, has `'!'` at index `len - 3`, and is a contiguous slice of
the byte stream starting at the first `'/'` — the bytes before it never reach
the stored telegram. -/
theorem readTelegram_accepted_invariants (running connected : Bool) (input t : List Char)
    (h : Meter.readTelegram running connected input = .ok t) :
    3 ≤ t.length ∧ t.length ≤ 368 ∧ t.head? = some '/' ∧
    t.getD (t.length - 3) ' ' = '!' ∧
    ∃ pre post, input = pre ++ (t ++ post) ∧ '/' ∉ pre := by
  unfold Meter.readTelegram at h
  by_cases hr : running = false
  · rw [if_pos hr] at h
    cases h
  · rw [if_neg hr] at h
    by_cases hcn : connected = false
    · rw [if_pos hcn] at h
      cases h
    · rw [if_neg hcn] at h
      obtain ⟨hdone, hlen⟩ := readLoop_ok_len input false [] t h (by simp)
      obtain ⟨h3, hband⟩ := telegramDone_spec hdone
      obtain ⟨hhead, pre, post, heq, hpre⟩ := readLoop_false_shape input t h
      exact ⟨h3, hlen, hhead, hband, pre, post, heq, hpre⟩

/-- C3 (witness): noise `"ab"` before the frame is discarded and the telegram
`"/x!XY"` is accepted. -/
theorem readTelegram_accepted_invariants_witness :
    3 ≤ ("/x!XY".toList).length ∧ ("/x!XY".toList).length ≤ 368 ∧
    ("/x!XY".toList).head? = some '/' ∧
    ("/x!XY".toList).getD (("/x!XY".toList).length - 3) ' ' = '!' ∧
    ∃ pre post, "ab/x!XY".toList = pre ++ ("/x!XY".toList ++ post) ∧ '/' ∉ pre :=
  readTelegram_accepted_invariants true true ("ab/x!XY".toList) ("/x!XY".toList) (by rfl)

/-- C4: with power factor `p` from the grid config (default 0.95) and the
parsed per-phase voltages positive, the derived quantities of
`updateValuesAndJson` satisfy the spec's formulas: `apparent = active / p`
and `reactive = tan(acos p) · active` (aggregate and per phase), the
aggregate phase voltage is the mean, the phase-to-phase voltages are
`sqrt(Vi² + Vj² + Vi·Vj)` with the cyclic neighbour, the aggregate
phase-to-phase voltage is their mean, each phase current is
`active / (V · p)`, and the aggregate current is the sum. -/
theorem computeDerived_formulas (grid : Option Meter.GridConfig) (v : MeterTypes.Values)
    (_hp0 : 0 < Meter.gridPowerFactor grid) (_hp1 : Meter.gridPowerFactor grid ≤ 1)
    (_hv1 : 0 < v.phase1.phVoltage) (_hv2 : 0 < v.phase2.phVoltage)
    (_hv3 : 0 < v.phase3.phVoltage) :
    (Meter.computeDerived grid v).apparentPower =
        (Meter.computeDerived grid v).activePower / Meter.gridPowerFactor grid ∧
    (Meter.computeDerived grid v).phase1.apparentPower =
        (Meter.computeDerived grid v).phase1.activePower / Meter.gridPowerFactor grid ∧
    (Meter.computeDerived grid v).phase2.apparentPower =
        (Meter.computeDerived grid v).phase2.activePower / Meter.gridPowerFactor grid ∧
    (Meter.computeDerived grid v).phase3.apparentPower =
        (Meter.computeDerived grid v).phase3.activePower / Meter.gridPowerFactor grid ∧
    (Meter.computeDerived grid v).reactivePower =
        Real.tan (Real.arccos (Meter.gridPowerFactor grid)) *
          (Meter.computeDerived grid v).activePower ∧
    (Meter.computeDerived grid v).phase1.reactivePower =
        Real.tan (Real.arccos (Meter.gridPowerFactor grid)) *
          (Meter.computeDerived grid v).phase1.activePower ∧
    (Meter.computeDerived grid v).phase2.reactivePower =
        Real.tan (Real.arccos (Meter.gridPowerFactor grid)) *
          (Meter.computeDerived grid v).phase2.activePower ∧
    (Meter.computeDerived grid v).phase3.reactivePower =
        Real.tan (Real.arccos (Meter.gridPowerFactor grid)) *
          (Meter.computeDerived grid v).phase3.activePower ∧
    (Meter.computeDerived grid v).phVoltage =
        ((Meter.computeDerived grid v).phase1.phVoltage +
          (Meter.computeDerived grid v).phase2.phVoltage +
          (Meter.computeDerived grid v).phase3.phVoltage) / 3 ∧
    (Meter.computeDerived grid v).phase1.ppVoltage =
        Real.sqrt ((Meter.computeDerived grid v).phase1.phVoltage ^ 2 +
          (Meter.computeDerived grid v).phase2.phVoltage ^ 2 +
          (Meter.computeDerived grid v).phase1.phVoltage *
            (Meter.computeDerived grid v).phase2.phVoltage) ∧
    (Meter.computeDerived grid v).phase2.ppVoltage =
        Real.sqrt ((Meter.computeDerived grid v).phase2.phVoltage ^ 2 +
          (Meter.computeDerived grid v).phase3.phVoltage ^ 2 +
          (Meter.computeDerived grid v).phase2.phVoltage *
            (Meter.computeDerived grid v).phase3.phVoltage) ∧
    (Meter.computeDerived grid v).phase3.ppVoltage =
        Real.sqrt ((Meter.computeDerived grid v).phase3.phVoltage ^ 2 +
          (Meter.computeDerived grid v).phase1.phVoltage ^ 2 +
          (Meter.computeDerived grid v).phase3.phVoltage *
            (Meter.computeDerived grid v).phase1.phVoltage) ∧
    (Meter.computeDerived grid v).ppVoltage =
        ((Meter.computeDerived grid v).phase1.ppVoltage +
          (Meter.computeDerived grid v).phase2.ppVoltage +
          (Meter.computeDerived grid v).phase3.ppVoltage) / 3 ∧
    (Meter.computeDerived grid v).phase1.current =
        (Meter.computeDerived grid v).phase1.activePower /
          ((Meter.computeDerived grid v).phase1.phVoltage * Meter.gridPowerFactor grid) ∧
    (Meter.computeDerived grid v).phase2.current =
        (Meter.computeDerived grid v).phase2.activePower /
          ((Meter.computeDerived grid v).phase2.phVoltage * Meter.gridPowerFactor grid) ∧
    (Meter.computeDerived grid v).phase3.current =
        (Meter.computeDerived grid v).phase3.activePower /
          ((Meter.computeDerived grid v).phase3.phVoltage * Meter.gridPowerFactor grid) ∧
    (Meter.computeDerived grid v).current =
        (Meter.computeDerived grid v).phase1.current +
          (Meter.computeDerived grid v).phase2.current +
          (Meter.computeDerived grid v).phase3.current := by
  refine ⟨rfl, rfl, rfl, rfl, rfl, rfl, rfl, rfl, ?_, ?_, ?_, ?_, ?_, rfl, rfl, rfl, rfl⟩ <;>
    simp only [Meter.computeDerived] <;> norm_num [sq]

/-- C4 (witness): default grid (p = 0.95) and voltages 230/231/232. -/
theorem computeDerived_formulas_witness :
    (Meter.computeDerived none { MeterTypes.Values.zero with
        phase1 := { MeterTypes.Phase.zero with phVoltage := 230 },
        phase2 := { MeterTypes.Phase.zero with phVoltage := 231 },
        phase3 := { MeterTypes.Phase.zero with phVoltage := 232 } }).apparentPower =
      (Meter.computeDerived none { MeterTypes.Values.zero with
        phase1 := { MeterTypes.Phase.zero with phVoltage := 230 },
        phase2 := { MeterTypes.Phase.zero with phVoltage := 231 },
        phase3 := { MeterTypes.Phase.zero with phVoltage := 232 } }).activePower /
        Meter.gridPowerFactor none :=
  (computeDerived_formulas none _ (by norm_num [Meter.gridPowerFactor])
    (by norm_num [Meter.gridPowerFactor]) (by norm_num) (by norm_num) (by norm_num)).1

/-- Every error the parse loop's try-block produces carries code `EPROTO`. -/
theorem parseLine_error_code (stod : List Char → Option ℝ) (stoulHex : List Char → Option ℕ)
    (v : MeterTypes.Values) (l : List Char) (e : ModbusError)
    (h : Meter.parseLine stod stoulHex v l = .error e) : e.code = EPROTO := by
  unfold Meter.parseLine at h
  rcases hs : Meter.obisSearch l with _ | ⟨obis, valueUnit⟩
  · simp only [hs] at h
    cases h
    rfl
  · simp only [hs] at h
    split_ifs at h
    all_goals try split at h
    all_goals cases h <;> rfl

/-- A telegram with a line failing the OBIS regex parses to an `EPROTO`
error, whatever the earlier lines did. -/
theorem parseLines_bad (stod : List Char → Option ℝ) (stoulHex : List Char → Option ℕ) :
    ∀ (ls : List (List Char)) (v : MeterTypes.Values),
    (∃ l ∈ ls, Meter.badLine l) →
    ∃ e, Meter.parseLines stod stoulHex ls v = .error e ∧ e.code = EPROTO := by
  intro ls
  induction ls with
  | nil =>
    intro v h
    rcases h with ⟨l, hl, _⟩
    simp at hl
  | cons l rest ih =>
    intro v h
    rcases h with ⟨l0, hl0, hbad⟩
    rcases List.mem_cons.mp hl0 with rfl | hmem
    · obtain ⟨hne, hs1, hs2, hno⟩ := hbad
      simp only [Meter.parseLines]
      rw [if_neg (by simpa [List.isEmpty_iff] using hne)]
      rw [if_neg (by push_neg; exact ⟨hs1, hs2⟩)]
      have hpl : Meter.parseLine stod stoulHex v (Meter.stripCR l0) =
          .error (ModbusError.custom EPROTO "malformed OBEX expression") := by
        unfold Meter.parseLine
        rw [hno]
      simp only [hpl]
      exact ⟨_, rfl, rfl⟩
    · simp only [Meter.parseLines]
      by_cases he : (Meter.stripCR l).isEmpty
      · rw [if_pos he]
        exact ih _ ⟨l0, hmem, hbad⟩
      · rw [if_neg he]
        by_cases hh : (Meter.stripCR l).head? = some '/' ∨ (Meter.stripCR l).head? = some '!'
        · rw [if_pos hh]
          exact ih _ ⟨l0, hmem, hbad⟩
        · rw [if_neg hh]
          cases hp : Meter.parseLine stod stoulHex v (Meter.stripCR l) with
          | error e =>
            simp only [hp]
            exact ⟨e, rfl, parseLine_error_code _ _ _ _ _ hp⟩
          | ok v2 =>
            simp only [hp]
            exact ih _ ⟨l0, hmem, hbad⟩

/-- C9 (amended): whenever some line of the telegram — other than empty
lines, the header and `'!'` lines — fails the regex the code actually builds
(`^([0-9]-0:[0-9]+.[0-9]+.[0-9]+\*255)\(([^)]+)\)`, separators being
unescaped dots), `updateValuesAndJson` returns an error with code `EPROTO`. -/
theorem updateValuesAndJson_malformed_line_eproto (stod : List Char → Option ℝ)
    (stoulHex : List Char → Option ℕ) (grid : Option Meter.GridConfig) (nowMs : ℕ)
    (telegram : List Char)
    (hbad : ∃ l ∈ Meter.splitLines telegram, Meter.badLine l) :
    ∃ e, Meter.updateValuesAndJson stod stoulHex grid true nowMs telegram = .error e ∧
      e.code = EPROTO := by
  have hne : ¬telegram.isEmpty := by
    rcases hbad with ⟨l, hl, hb⟩
    intro h0
    rw [List.isEmpty_iff] at h0
    subst h0
    simp [Meter.splitLines] at hl
    subst hl
    exact hb.1 rfl
  unfold Meter.updateValuesAndJson
  rw [if_neg (by simp)]
  rw [if_neg hne]
  obtain ⟨e, hpe, hc⟩ := parseLines_bad stod stoulHex (Meter.splitLines telegram)
    { MeterTypes.Values.zero with time := nowMs } hbad
  simp only [hpe]
  exact ⟨e, rfl, hc⟩

/-- C9 (witness): a telegram consisting of the single line `"garbage"`. -/
theorem updateValuesAndJson_malformed_line_eproto_witness :
    ∃ e, Meter.updateValuesAndJson (fun _ => none) (fun _ => none) none true 0
        ("garbage".toList) = .error e ∧ e.code = EPROTO :=
  updateValuesAndJson_malformed_line_eproto (fun _ => none) (fun _ => none) none 0
    ("garbage".toList)
    ⟨"garbage".toList, by decide, ⟨by decide, by decide, by decide, by decide⟩⟩

/-- C9 (counterexample): the claim's regex has escaped dots, the code's has
unescaped ones.  The line `1-0:1x8x0*255(123*W)` fails the spec's regex —
so the claim demands `EPROTO` — yet the code's regex matches it, the OBIS
code is unknown, and the telegram parses successfully. -/
theorem updateValuesAndJson_unescaped_dot_counterexample :
    (Meter.updateValuesAndJson (fun _ => none) (fun _ => none) none true 0
        ("1-0:1x8x0*255(123*W)".toList)).isOk = true ∧
    Meter.stripCR ("1-0:1x8x0*255(123*W)".toList) ≠ [] ∧
    (Meter.stripCR ("1-0:1x8x0*255(123*W)".toList)).head? ≠ some '/' ∧
    (Meter.stripCR ("1-0:1x8x0*255(123*W)".toList)).head? ≠ some '!' ∧
    Meter.specObisMatches ("1-0:1x8x0*255(123*W)".toList) = false :=
  ⟨rfl, by decide, by decide, by decide, by decide⟩

/-- A pack call leaves every register outside `op.addrs` unchanged. -/
theorem applyPack_frame (setF : ℝ → ℕ × ℕ) (m : Mapping) (op : PackOp) (a : ℕ)
    (ha : a ∉ op.addrs) : (applyPack setF m op).tab a = m.tab a := by
  cases op with
  | pfloat reg x =>
    obtain ⟨addr, nb, ty⟩ := reg
    cases ty <;>
      simp_all [applyPack, ModbusUtils.packToModbusF, PackOp.addrs, writeWord]
  | pintSF reg sf x d =>
    obtain ⟨addr, nb, ty⟩ := reg
    cases ty <;>
      simp_all [applyPack, ModbusUtils.packToModbusSF, PackOp.addrs, writeWord,
        packInteger32, packInteger64]

/-- A whole pack sequence leaves untouched addresses unchanged. -/
theorem foldl_applyPack_frame (setF : ℝ → ℕ × ℕ) (ops : List PackOp) (m : Mapping) (a : ℕ)
    (ha : ∀ op ∈ ops, a ∉ op.addrs) :
    (ops.foldl (applyPack setF) m).tab a = m.tab a := by
  induction ops generalizing m with
  | nil => rfl
  | cons op rest ih =>
    rw [List.foldl_cons, ih (applyPack setF m op) (fun o ho => ha o (List.mem_cons_of_mem _ ho))]
    exact applyPack_frame setF m op a (ha op (List.mem_cons_self _ _))

/-- The written addresses do not depend on the packed values (float model). -/
theorem valuePacksFloat_addrs (v : MeterTypes.Values) :
    (ModbusSlave.valuePacksFloat v).flatMap PackOp.addrs = ModbusSlave.packAddrs true := rfl

/-- The written addresses do not depend on the packed values (int+SF model). -/
theorem valuePacksInt_addrs (v : MeterTypes.Values) :
    (ModbusSlave.valuePacksInt v).flatMap PackOp.addrs = ModbusSlave.packAddrs false := rfl

/-- Every address `updateValues` writes lies in the meter-model block. -/
theorem packAddrs_bound (useFloat : Bool) :
    ∀ a ∈ ModbusSlave.packAddrs useFloat, 40071 ≤ a ∧ a ≤ 40144 := by
  cases useFloat
  · decide
  · decide


/-- C1 (amended): each `updateValues` call builds a fresh 65,535-word snapshot
(`MODBUS_REGISTERS = 65535`, not 65,536) copied from the previous one and
publishes it as a new handle; every register outside the packed meter-model
addresses keeps the previous snapshot's word — in particular the whole common
block 40000–40068 is unchanged, and the `SID` words written by `startListener`
spell `"SunS"` (`0x5375`, `0x6e53`). -/
theorem updateValues_snapshot_frame (setF : ℝ → ℕ × ℕ) (useFloat : Bool)
    (v : MeterTypes.Values) (st : SlaveState) (old : Mapping)
    (hregs : st.regs = some old) :
    ∃ nw, (ModbusSlave.updateValues setF useFloat true v st).regs = some nw ∧
      nw.nb = ModbusSlave.MODBUS_REGISTERS ∧
      ModbusSlave.MODBUS_REGISTERS = 65535 ∧
      (∀ a, a < ModbusSlave.MODBUS_REGISTERS → a ∉ ModbusSlave.packAddrs useFloat →
        nw.tab a = old.tab a) ∧
      (∀ a ∈ ModbusSlave.packAddrs useFloat, 40071 ≤ a ∧ a ≤ 40144) ∧
      (∀ a, 40000 ≤ a → a ≤ 40068 → nw.tab a = old.tab a) ∧
      (∀ slaveId, (ModbusSlave.startRegs useFloat slaveId).tab 40000 = 0x5375 ∧
        (ModbusSlave.startRegs useFloat slaveId).tab 40001 = 0x6e53) := by
  have hstep : ModbusSlave.updateValues setF useFloat true v st =
      ⟨some ((if useFloat then ModbusSlave.valuePacksFloat (ModbusSlave.rescaleValues v)
          else ModbusSlave.valuePacksInt (ModbusSlave.rescaleValues v)).foldl
          (applyPack setF) (copyMapping old)), st.deviceUpdated⟩ := by
    unfold ModbusSlave.updateValues
    simp [hregs]
  have hflat : (if useFloat then ModbusSlave.valuePacksFloat (ModbusSlave.rescaleValues v)
      else ModbusSlave.valuePacksInt (ModbusSlave.rescaleValues v)).flatMap PackOp.addrs =
      ModbusSlave.packAddrs useFloat := by
    cases useFloat
    · exact valuePacksInt_addrs _
    · exact valuePacksFloat_addrs _
  have hframe : ∀ a, a < ModbusSlave.MODBUS_REGISTERS → a ∉ ModbusSlave.packAddrs useFloat →
      ((if useFloat then ModbusSlave.valuePacksFloat (ModbusSlave.rescaleValues v)
        else ModbusSlave.valuePacksInt (ModbusSlave.rescaleValues v)).foldl
        (applyPack setF) (copyMapping old)).tab a = old.tab a := by
    intro a hlt hnot
    rw [foldl_applyPack_frame]
    · simp [copyMapping, hlt]
    · intro op hop hmem
      exact hnot (hflat ▸ List.mem_flatMap.mpr ⟨op, hop, hmem⟩)
  refine ⟨_, by rw [hstep], ?_, rfl, hframe, packAddrs_bound useFloat, ?_, ?_⟩
  · cases useFloat
    · rfl
    · rfl
  · intro a h1 h2
    refine hframe a (by simp [ModbusSlave.MODBUS_REGISTERS]; omega) ?_
    intro hmem
    have := (packAddrs_bound useFloat) a hmem
    omega
  · intro slaveId
    cases useFloat
    · exact ⟨rfl, rfl⟩
    · exact ⟨rfl, rfl⟩

/-- C1 (counterexample): the snapshot allocated by `updateValues` holds
`MODBUS_REGISTERS = 65535` sixteen-bit words, not 65,536 as the claim says. -/
theorem updateValues_snapshot_word_count :
    ((ModbusSlave.updateValues (fun _ => (0, 0)) false true MeterTypes.Values.zero
        (ModbusSlave.initState false 1)).regs.elim 0 Mapping.nb) = 65535 ∧
    (65535 : ℕ) ≠ 65536 :=
  ⟨rfl, by decide⟩

/-- C1 (witness): the int+SF model starting from the listener's state. -/
theorem updateValues_snapshot_frame_witness :
    ∃ nw, (ModbusSlave.updateValues (fun _ => (0, 0)) false true MeterTypes.Values.zero
        (ModbusSlave.initState false 1)).regs = some nw ∧
      nw.nb = ModbusSlave.MODBUS_REGISTERS ∧
      ModbusSlave.MODBUS_REGISTERS = 65535 ∧
      (∀ a, a < ModbusSlave.MODBUS_REGISTERS → a ∉ ModbusSlave.packAddrs false →
        nw.tab a = (ModbusSlave.startRegs false 1).tab a) ∧
      (∀ a ∈ ModbusSlave.packAddrs false, 40071 ≤ a ∧ a ≤ 40144) ∧
      (∀ a, 40000 ≤ a → a ≤ 40068 → nw.tab a = (ModbusSlave.startRegs false 1).tab a) ∧
      (∀ slaveId, (ModbusSlave.startRegs false slaveId).tab 40000 = 0x5375 ∧
        (ModbusSlave.startRegs false slaveId).tab 40001 = 0x6e53) :=
  updateValues_snapshot_frame (fun _ => (0, 0)) false MeterTypes.Values.zero
    (ModbusSlave.initState false 1) (ModbusSlave.startRegs false 1) rfl

/-- C10: `updateValues` rescales its by-value argument — energy ×1000 (kWh to
Wh) and all four power factors ×100 (fraction to percent) — leaving the
caller's `Values` untouched.  In the float model the energy and power-factor
registers receive the scaled figures.  In the int+SF model the energy pair
receives `round(1000·energy · 10)` with scale factor −1, but the four
power-factor packs are silent no-ops — `packToModbus` is instantiated with a
`double` on `INT16` registers, whose `if constexpr (is_integral)` guard
discards the store — so registers 40102–40105 keep their previous contents
instead of the percent values the code's comments promise. -/
theorem updateValues_rescale_and_int_pf_noop (setF : ℝ → ℕ × ℕ) (v : MeterTypes.Values)
    (st : SlaveState) (old : Mapping) (hregs : st.regs = some old) :
    (ModbusSlave.rescaleValues v).energy = v.energy * 1000 ∧
    (ModbusSlave.rescaleValues v).powerFactor = v.powerFactor * 100 ∧
    (ModbusSlave.rescaleValues v).phase1.powerFactor = v.phase1.powerFactor * 100 ∧
    (ModbusSlave.rescaleValues v).phase2.powerFactor = v.phase2.powerFactor * 100 ∧
    (ModbusSlave.rescaleValues v).phase3.powerFactor = v.phase3.powerFactor * 100 ∧
    (∃ nwf, (ModbusSlave.updateValues setF true true v st).regs = some nwf ∧
      nwf.tab M21X.TOTWH_IMP.ADDR = (setF (v.energy * 1000)).1 ∧
      nwf.tab (M21X.TOTWH_IMP.ADDR + 1) = (setF (v.energy * 1000)).2 ∧
      nwf.tab M21X.PF.ADDR = (setF (v.powerFactor * 100)).1 ∧
      nwf.tab (M21X.PF.ADDR + 1) = (setF (v.powerFactor * 100)).2) ∧
    (∃ nwi, (ModbusSlave.updateValues setF false true v st).regs = some nwi ∧
      nwi.tab M20X.TOTWH_IMP.ADDR =
        u32ofInt (roundAway (v.energy * 1000 * 10 ^ 1)) / 65536 % 65536 ∧
      nwi.tab (M20X.TOTWH_IMP.ADDR + 1) =
        u32ofInt (roundAway (v.energy * 1000 * 10 ^ 1)) % 65536 ∧
      nwi.tab M20X.TOTWH_SF.ADDR = u16ofInt (-(1 : ℤ)) ∧
      nwi.tab M20X.PF.ADDR = old.tab M20X.PF.ADDR ∧
      nwi.tab M20X.PFPHA.ADDR = old.tab M20X.PFPHA.ADDR ∧
      nwi.tab M20X.PFPHB.ADDR = old.tab M20X.PFPHB.ADDR ∧
      nwi.tab M20X.PFPHC.ADDR = old.tab M20X.PFPHC.ADDR) := by
  have h1000 : (1000 : ℝ) = 1e3 := by norm_num
  have h100 : (100 : ℝ) = 100.0 := by norm_num
  have hstepF : ModbusSlave.updateValues setF true true v st =
      ⟨some ((ModbusSlave.valuePacksFloat (ModbusSlave.rescaleValues v)).foldl
        (applyPack setF) (copyMapping old)), st.deviceUpdated⟩ := by
    unfold ModbusSlave.updateValues
    simp [hregs]
  have hstepI : ModbusSlave.updateValues setF false true v st =
      ⟨some ((ModbusSlave.valuePacksInt (ModbusSlave.rescaleValues v)).foldl
        (applyPack setF) (copyMapping old)), st.deviceUpdated⟩ := by
    unfold ModbusSlave.updateValues
    simp [hregs]
  refine ⟨by rw [h1000]; rfl, by rw [h100]; rfl, by rw [h100]; rfl, by rw [h100]; rfl,
    by rw [h100]; rfl, ⟨_, by rw [hstepF], ?_, ?_, ?_, ?_⟩, ⟨_, by rw [hstepI], ?_, ?_, ?_,
    ?_, ?_, ?_, ?_⟩⟩
  · rw [h1000]; rfl
  · rw [h1000]; rfl
  · rw [h100]; rfl
  · rw [h100]; rfl
  · rw [h1000]; rfl
  · rw [h1000]; rfl
  · rfl
  · rfl
  · rfl
  · rfl
  · rfl

/-- C10 (witness): instantiated at the listener's initial state. -/
theorem updateValues_rescale_and_int_pf_noop_witness :
    (ModbusSlave.rescaleValues MeterTypes.Values.zero).energy =
        MeterTypes.Values.zero.energy * 1000 ∧
    (ModbusSlave.rescaleValues MeterTypes.Values.zero).powerFactor =
        MeterTypes.Values.zero.powerFactor * 100 :=
  ⟨(updateValues_rescale_and_int_pf_noop (fun _ => (7, 9)) MeterTypes.Values.zero
      (ModbusSlave.initState false 1) (ModbusSlave.startRegs false 1) rfl).1,
   (updateValues_rescale_and_int_pf_noop (fun _ => (7, 9)) MeterTypes.Values.zero
      (ModbusSlave.initState false 1) (ModbusSlave.startRegs false 1) rfl).2.1⟩

